import Mathlib

/-!
Verification development for the OKX order-subscription service
(`okx.service.ts`, `wechat.service.ts`, `okx-order.interface.ts`).

The development shallowly embeds the connection-lifecycle manager
(`OkxService`): its mutable fields become an explicit state record, the
socket/timer callbacks become a step function on that record, and every
externally visible effect (socket creation and closing, outbound frames,
notification-sink calls, decode-fault log calls) is emitted as an explicit
action.  Machine words in SHA-256 are `Nat` reduced modulo `2 ^ 32`.
-/

namespace OkxSub

/-! ## Byte-level primitives: UTF-8, SHA-256, HMAC, base64

`crypto.createHmac("sha256", key).update(prehash).digest("base64")` in Node
encodes its string arguments as UTF-8, computes HMAC-SHA-256 (RFC 2104 with
the FIPS 180-4 hash), and renders the 32-byte digest in base64 (RFC 4648).
The definitions below implement exactly that pipeline on `List Nat` bytes.
-/

/-- Reduce a natural number to a 32-bit word. -/
def w32 (x : Nat) : Nat := x % 4294967296

/-- UTF-8 encoding of one Unicode code point, as bytes. -/
def utf8Bytes (c : Nat) : List Nat :=
  if c < 128 then [c]
  else if c < 2048 then [192 + c / 64, 128 + c % 64]
  else if c < 65536 then [224 + c / 4096, 128 + c / 64 % 64, 128 + c % 64]
  else [240 + c / 262144, 128 + c / 4096 % 64, 128 + c / 64 % 64, 128 + c % 64]

/-- UTF-8 bytes of a string, matching the encoding Node applies to string
inputs of `hmac.update`. -/
def strBytes (s : String) : List Nat :=
  s.data.flatMap (fun ch => utf8Bytes ch.toNat)

/-- Big-endian byte rendering of `n` in `k` bytes. -/
def toBytesBE (k : Nat) (n : Nat) : List Nat :=
  (List.range k).map (fun i => n / 256 ^ (k - 1 - i) % 256)

/-- Right rotation of a 32-bit word by `r` bits. -/
def rotr (r x : Nat) : Nat := w32 (x / 2 ^ r + x % 2 ^ r * 2 ^ (32 - r))

/-- SHA-256 round constants (FIPS 180-4 section 4.2.2). -/
def sha256K : List Nat :=
  [1116352408, 1899447441, 3049323471, 3921009573, 961987163, 1508970993,
   2453635748, 2870763221, 3624381080, 310598401, 607225278, 1426881987,
   1925078388, 2162078206, 2614888103, 3248222580, 3835390401, 4022224774,
   264347078, 604807628, 770255983, 1249150122, 1555081692, 1996064986,
   2554220882, 2821834349, 2952996808, 3210313671, 3336571891, 3584528711,
   113926993, 338241895, 666307205, 773529912, 1294757372, 1396182291,
   1695183700, 1986661051, 2177026350, 2456956037, 2730485921, 2820302411,
   3259730800, 3345764771, 3516065817, 3600352804, 4094571909, 275423344,
   430227734, 506948616, 659060556, 883997877, 958139571, 1322822218,
   1537002063, 1747873779, 1955562222, 2024104815, 2227730452, 2361852424,
   2428436474, 2756734187, 3204031479, 3329325298]

/-- SHA-256 initial hash value (FIPS 180-4 section 5.3.3). -/
def sha256H0 : List Nat :=
  [1779033703, 3144134277, 1013904242, 2773480762, 1359893119, 2600822924,
   528734635, 1541459225]

/-- SHA-256 message padding: append bit `1`, zero bytes, and the 64-bit
big-endian bit length, reaching a multiple of 64 bytes. -/
def sha256Pad (msg : List Nat) : List Nat :=
  let zeros := (119 - msg.length % 64) % 64
  msg ++ [128] ++ List.replicate zeros 0 ++ toBytesBE 8 (msg.length * 8)

/-- Split a byte list into 64-byte blocks, with a structural fuel argument
(one unit per block suffices, since every block consumes a byte). -/
def chunks64Aux : Nat → List Nat → List (List Nat)
  | 0, _ => []
  | _, [] => []
  | fuel + 1, a :: rest => (a :: rest.take 63) :: chunks64Aux fuel (rest.drop 63)

/-- Split a byte list into 64-byte blocks. -/
def chunks64 (l : List Nat) : List (List Nat) := chunks64Aux l.length l

/-- First sixteen 32-bit words of a 64-byte block, big-endian. -/
def blockWords (block : List Nat) : List Nat :=
  (List.range 16).map (fun i =>
    block.getD (4 * i) 0 * 16777216 + block.getD (4 * i + 1) 0 * 65536 +
    block.getD (4 * i + 2) 0 * 256 + block.getD (4 * i + 3) 0)

/-- Message-schedule extension step: append `w(t)` for `t` from 16 to 63. -/
def scheduleStep (w : List Nat) (_i : Nat) : List Nat :=
  let n := w.length
  let s0 :=
    (rotr 7 (w.getD (n - 15) 0)) ^^^ (rotr 18 (w.getD (n - 15) 0)) ^^^
    (w.getD (n - 15) 0 / 8)
  let s1 :=
    (rotr 17 (w.getD (n - 2) 0)) ^^^ (rotr 19 (w.getD (n - 2) 0)) ^^^
    (w.getD (n - 2) 0 / 1024)
  w ++ [w32 (w.getD (n - 16) 0 + s0 + w.getD (n - 7) 0 + s1)]

/-- Full 64-entry message schedule of one block. -/
def schedule (block : List Nat) : List Nat :=
  (List.range 48).foldl scheduleStep (blockWords block)

/-- One SHA-256 compression round on the eight working variables. -/
def compressRound (x : List Nat) (kw : Nat × Nat) : List Nat :=
  let a := x.getD 0 0
  let b := x.getD 1 0
  let c := x.getD 2 0
  let d := x.getD 3 0
  let e := x.getD 4 0
  let f := x.getD 5 0
  let g := x.getD 6 0
  let h := x.getD 7 0
  let bigS1 := (rotr 6 e) ^^^ (rotr 11 e) ^^^ (rotr 25 e)
  let ch := (e &&& f) ^^^ ((e ^^^ 4294967295) &&& g)
  let t1 := w32 (h + bigS1 + ch + kw.1 + kw.2)
  let bigS0 := (rotr 2 a) ^^^ (rotr 13 a) ^^^ (rotr 22 a)
  let maj := (a &&& b) ^^^ (a &&& c) ^^^ (b &&& c)
  let t2 := w32 (bigS0 + maj)
  [w32 (t1 + t2), a, b, c, w32 (d + t1), e, f, g]

/-- SHA-256 compression of one 64-byte block into the running hash. -/
def compressBlock (h : List Nat) (block : List Nat) : List Nat :=
  let x := (sha256K.zip (schedule block)).foldl compressRound h
  (h.zip x).map (fun p => w32 (p.1 + p.2))

/-- SHA-256 digest (32 bytes) of a byte list. -/
def sha256 (msg : List Nat) : List Nat :=
  ((chunks64 (sha256Pad msg)).foldl compressBlock sha256H0).flatMap
    (toBytesBE 4)

/-- HMAC-SHA-256 (RFC 2104): digest of a keyed message. -/
def hmacSha256 (key msg : List Nat) : List Nat :=
  let k0 := if key.length > 64 then sha256 key else key
  let kp := k0 ++ List.replicate (64 - k0.length) 0
  let ipadKey := kp.map (fun b => b ^^^ 54)
  let opadKey := kp.map (fun b => b ^^^ 92)
  sha256 (opadKey ++ sha256 (ipadKey ++ msg))

/-- Base64 alphabet (RFC 4648). -/
def b64Alphabet : List Char :=
  "ABCDEFGHIJKLMNOPQRSTUVWXYZabcdefghijklmnopqrstuvwxyz0123456789+/".data

/-- Base64 character for a 6-bit value. -/
def b64Char (i : Nat) : Char := b64Alphabet.getD i (Char.ofNat 63)

/-- Base64 encoding (RFC 4648) of a byte list, with padding. -/
def base64Encode : List Nat → String
  | [] => ""
  | [a] =>
    String.mk [b64Char (a / 4), b64Char (a % 4 * 16)] ++ "=="
  | [a, b] =>
    String.mk [b64Char (a / 4), b64Char (a % 4 * 16 + b / 16),
               b64Char (b % 16 * 4)] ++ "="
  | a :: b :: c :: rest =>
    String.mk [b64Char (a / 4), b64Char (a % 4 * 16 + b / 16),
               b64Char (b % 16 * 4 + c / 64), b64Char (c % 64)] ++
    base64Encode rest

/-! ## Signer

`OkxService.sign` concatenates `timestamp + method + requestPath + body`
into a prehash and returns the base64 HMAC-SHA-256 digest keyed with the
configured secret.  The source gives `body` the default value `""`; the one
call site, `login`, uses that default. -/

/-- Embedding of `OkxService.sign`. -/
def sign (secretKey timestamp method requestPath body : String) : String :=
  let prehash := timestamp ++ method ++ requestPath ++ body
  base64Encode (hmacSha256 (strBytes secretKey) (strBytes prehash))

/-- Signature sent by `OkxService.login`: method `GET`, path
`/users/self/verify`, and the default empty body. -/
def loginSign (secretKey timestamp : String) : String :=
  sign secretKey timestamp "GET" "/users/self/verify" ""

/-! ## Order data model

Fields of `OkxOrderData` (from `okx-order.interface.ts`) that the service
reads; all are wire strings.  `ORDER_SIDE_MAP` and `ORDER_STATE_MAP` are the
fixed lookup tables, with pass-through on a missing key (`map[k] || k`). -/

/-- Order record fields read by `OkxService`. -/
structure OkxOrderData where
  instId : String
  ordId : String
  side : String
  state : String
  sz : String
  px : String
  avgPx : String
  pnl : String
  uTime : String
deriving Repr, DecidableEq

/-- Embedding of `ORDER_SIDE_MAP` as a partial lookup. -/
def ORDER_SIDE_MAP (k : String) : Option String :=
  if k = "buy" then some "买入"
  else if k = "sell" then some "卖出"
  else none

/-- Embedding of `ORDER_STATE_MAP` as a partial lookup. -/
def ORDER_STATE_MAP (k : String) : Option String :=
  if k = "canceled" then some "已撤销"
  else if k = "live" then some "等待成交"
  else if k = "partially_filled" then some "部分成交"
  else if k = "filled" then some "完全成交"
  else if k = "mmp_canceled" then some "做市商保护撤销"
  else none

/-- Embedding of `OkxService.formatDate`.  The source renders the
epoch-millisecond string through `Date.toLocaleString` with the zh-CN
locale; the locale rendering itself (wall-clock formatting) is outside the
embedding, so the rendered value is kept as the raw timestamp string.  No
claim constrains the output of this function. -/
def formatDate (timestamp : String) : String := timestamp

/-- Embedding of `OkxService.formatSize`: the size, with the average fill
price appended when `avgPx` is truthy, not `"0"`, and not `""`. -/
def formatSize (order : OkxOrderData) : String :=
  if order.avgPx ≠ "" ∧ order.avgPx ≠ "0" then
    order.sz ++ " @ " ++ order.avgPx
  else order.sz

/-- Argument tuple of one `WechatService.sendOrderNotification` call:
time, instrument id, side label, formatted size, state label. -/
structure NotifyArgs where
  time : String
  instId : String
  side : String
  size : String
  state : String
deriving Repr, DecidableEq

/-- Arguments `OkxService.handleOrderData` passes to the notification sink
for one order record. -/
def orderNotifyArgs (order : OkxOrderData) : NotifyArgs :=
  { time := formatDate order.uTime
    instId := order.instId
    side := (ORDER_SIDE_MAP order.side).getD order.side
    size := formatSize order
    state := (ORDER_STATE_MAP order.state).getD order.state }

/-! ## Inbound frame model

`OkxWsMessage` mirrors the interface the decoder parses into.  A raw text
frame is modelled as its raw string together with the result JSON.parse
would produce on it: `none` when parsing throws, `some m` otherwise.  The
literal-pong check happens on the raw string before parsing, exactly as in
`handleMessage`. -/

/-- Subscription argument object of a frame (`arg` field). -/
structure WsArg where
  channel : String
  instType : Option String
  instId : Option String
deriving Repr, DecidableEq

/-- Embedding of the `OkxWsMessage` interface; every field is optional on
the wire. -/
structure OkxWsMessage where
  arg : Option WsArg
  event : Option String
  data : Option (List OkxOrderData)
  code : Option String
  msg : Option String
deriving Repr, DecidableEq

/-- One inbound text frame: the raw payload and the JSON.parse oracle
(`none` means parsing throws). -/
inductive Frame
  | text (raw : String) (parsed : Option OkxWsMessage)
deriving Repr, DecidableEq

/-! ## Externally visible effects and connection-manager state -/

/-- Externally visible effects of the service, in emission order. -/
inductive Action
  | createSocket (id : Nat)
  | closeSocket (id : Nat)
  | sendLogin
  | sendSubscribe
  | sendPing
  | armReconnectTimer (delayMs : Nat)
  | notify (args : NotifyArgs)
  | logDecodeFault (rawTruncated : String)
deriving Repr, DecidableEq

/-- Mutable fields of `OkxService`.  Timer handles become Booleans (armed
or not), the socket handle becomes an optional socket id, and
`nextSocketId` numbers the sockets this instance creates. -/
structure OkxState where
  ws : Option Nat
  pingInterval : Bool
  reconnectTimeout : Bool
  isConnecting : Bool
  shouldReconnect : Bool
  nextSocketId : Nat
deriving Repr, DecidableEq

/-- Field initializers of `OkxService`: no socket, no timers, not
connecting, reconnection allowed. -/
def initialState : OkxState :=
  { ws := none, pingInterval := false, reconnectTimeout := false,
    isConnecting := false, shouldReconnect := true, nextSocketId := 0 }

/-- Embedding of `OkxService.cleanup`: cancel both timers and close any
live socket. -/
def cleanup (s : OkxState) : OkxState × List Action :=
  let closeActs := match s.ws with
    | some i => [Action.closeSocket i]
    | none => []
  ({ s with pingInterval := false, reconnectTimeout := false, ws := none },
   closeActs)

/-- Embedding of `OkxService.connectWebSocket`: a no-op while a connect is
already in flight; otherwise set the connecting flag, run `cleanup`, and
create a fresh socket. -/
def connectWebSocket (s : OkxState) : OkxState × List Action :=
  if s.isConnecting then (s, [])
  else
    let p := cleanup { s with isConnecting := true }
    ({ p.1 with ws := some p.1.nextSocketId, nextSocketId := p.1.nextSocketId + 1 },
     p.2 ++ [Action.createSocket p.1.nextSocketId])

/-- Embedding of `OkxService.scheduleReconnect`: arm a 5000 ms reconnect
timer, unless reconnection has been disabled. -/
def scheduleReconnect (s : OkxState) : OkxState × List Action :=
  if s.shouldReconnect then
    ({ s with reconnectTimeout := true }, [Action.armReconnectTimer 5000])
  else (s, [])

/-- Embedding of `OkxService.onModuleDestroy`: disable reconnection, then
`cleanup`. -/
def onModuleDestroy (s : OkxState) : OkxState × List Action :=
  cleanup { s with shouldReconnect := false }

/-- Embedding of `OkxService.subscribeOrders`: `this.ws?.send(...)` emits
the subscribe frame only while a socket reference is held. -/
def subscribeOrders (ws : Option Nat) : List Action :=
  match ws with
  | some _ => [Action.sendSubscribe]
  | none => []

/-- Embedding of `OkxService.handleOrderData`: one notification-sink call
per record, in array order. -/
def handleOrderData (orders : List OkxOrderData) : List Action :=
  orders.map (fun order => Action.notify (orderNotifyArgs order))

/-- Embedding of `OkxService.handleMessage`, reproducing the branch order
of the source: literal pong, JSON.parse (the catch branch logs the payload
truncated to 500 characters), login event, subscribe event, error event,
orders-channel data, silent fall-through. -/
def handleMessage (ws : Option Nat) (f : Frame) : List Action :=
  match f with
  | .text raw parsed =>
    if raw = "pong" then []
    else
      match parsed with
      | none => [Action.logDecodeFault (raw.take 500)]
      | some m =>
        if m.event = some "login" then
          if m.code = some "0" then subscribeOrders ws else []
        else if m.event = some "subscribe" then []
        else if m.event = some "error" then []
        else
          match m.arg, m.data with
          | some a, some d =>
            if a.channel = "orders" then handleOrderData d else []
          | _, _ => []

/-! ## Event step function

Each socket callback registered in `connectWebSocket`, each timer firing,
and each lifecycle hook becomes one event.  A canceled timer cannot fire:
the timer events are no-ops unless the corresponding handle is armed. -/

/-- Events driving the connection manager. -/
inductive Ev
  | connect
  | sockOpen
  | message (f : Frame)
  | sockError
  | sockClose
  | stop
  | reconnectFire
  | pingFire
deriving Repr, DecidableEq

/-- One step of the manager: the state update and the emitted actions of
handling one event, following the source handlers literally. -/
def step (s : OkxState) : Ev → OkxState × List Action
  | .connect => connectWebSocket s
  | .sockOpen =>
    let loginActs := match s.ws with
      | some _ => [Action.sendLogin]
      | none => []
    ({ s with isConnecting := false, pingInterval := true }, loginActs)
  | .message f => (s, handleMessage s.ws f)
  | .sockError => ({ s with isConnecting := false }, [])
  | .sockClose => scheduleReconnect { s with isConnecting := false }
  | .stop => onModuleDestroy s
  | .reconnectFire =>
    if s.reconnectTimeout then connectWebSocket s else (s, [])
  | .pingFire =>
    if s.pingInterval then
      match s.ws with
      | some _ => (s, [Action.sendPing])
      | none => (s, [])
    else (s, [])

/-- Run of the manager over an event list, accumulating emitted actions. -/
def run (s : OkxState) : List Ev → OkxState × List Action
  | [] => (s, [])
  | e :: rest =>
    let p := step s e
    let q := run p.1 rest
    (q.1, p.2 ++ q.2)

/-! ## Observation helpers -/

/-- Notification-sink calls among a list of actions, in order. -/
def notifications (acts : List Action) : List NotifyArgs :=
  acts.filterMap (fun a => match a with
    | .notify n => some n
    | _ => none)

/-- Test for the socket-creation action. -/
def isCreateSocket : Action → Bool
  | .createSocket _ => true
  | _ => false

/-- Test for the login-request action. -/
def isSendLogin : Action → Bool
  | .sendLogin => true
  | _ => false

/-- Frame decoded as a login success: not the pong literal, parseable, with
event `login` and code `0`. -/
def isLoginSuccess : Frame → Bool
  | .text raw parsed =>
    raw != "pong" &&
    match parsed with
    | some m => m.event == some "login" && m.code == some "0"
    | none => false

/-- Frame decoded as a login failure: not the pong literal, parseable, with
event `login` and a code other than `0`. -/
def isLoginFailure : Frame → Bool
  | .text raw parsed =>
    raw != "pong" &&
    match parsed with
    | some m => m.event == some "login" && m.code != some "0"
    | none => false

/-- Parsed object matching none of the decoder classifications: no login,
subscribe, or error event, and no orders-channel data payload. -/
def isUnclassified (m : OkxWsMessage) : Bool :=
  m.event != some "login" && m.event != some "subscribe" &&
  m.event != some "error" &&
  !(match m.arg, m.data with
    | some a, some _ => a.channel == "orders"
    | _, _ => false)

/-! ## Concrete sample data

Concrete states, frames, and records used by the closed witness and
counterexample theorems below. -/

/-- Concrete order record of the specification scenario: a filled buy of
size 0.1 at average price 95000 on BTC-USDT. -/
def sampleFilledOrder : OkxOrderData :=
  { instId := "BTC-USDT", ordId := "1234567890", side := "buy",
    state := "filled", sz := "0.1", px := "", avgPx := "95000",
    pnl := "", uTime := "1735200600000" }

/-- Message carrying both a login-success event and an orders-channel data
payload, used to witness event precedence. -/
def loginWithOrdersMsg : OkxWsMessage :=
  { arg := some { channel := "orders", instType := some "ANY", instId := none },
    event := some "login", data := some [sampleFilledOrder],
    code := some "0", msg := none }

/-- Sample live order record with average price zero. -/
def sampleLiveOrder : OkxOrderData :=
  { instId := "ETH-USDT", ordId := "42", side := "sell", state := "live",
    sz := "2", px := "2500", avgPx := "0", pnl := "", uTime := "1735200700000" }

/-- Subscription argument of the orders channel. -/
def ordersArg : WsArg :=
  { channel := "orders", instType := some "ANY", instId := none }

/-- Order-data frame object carrying two order records. -/
def ordersMsg : OkxWsMessage :=
  { arg := some ordersArg, event := none,
    data := some [sampleFilledOrder, sampleLiveOrder], code := none,
    msg := none }

/-- State of a fresh connection instance right after its socket (id 0) was
created, before the open event. -/
def liveState : OkxState :=
  { ws := some 0, pingInterval := false, reconnectTimeout := false,
    isConnecting := true, shouldReconnect := true, nextSocketId := 1 }

/-- Decoded login-failure frame (event `login`, code `60009`). -/
def loginFailFrame : Frame :=
  Frame.text "\x7b\"event\":\"login\",\"code\":\"60009\"\x7d"
    (some { arg := none, event := some "login", data := none,
            code := some "60009", msg := some "Login failed" })

/-- Decoded login-success frame (event `login`, code `0`). -/
def loginSuccessFrame : Frame :=
  Frame.text "\x7b\"event\":\"login\",\"code\":\"0\"\x7d"
    (some { arg := none, event := some "login", data := none,
            code := some "0", msg := none })

/-- State with a live socket (id 7) and an armed heartbeat timer, used to
exercise the close and error handlers. -/
def closeDemoState : OkxState :=
  { ws := some 7, pingInterval := true, reconnectTimeout := false,
    isConnecting := false, shouldReconnect := true, nextSocketId := 8 }

/-- State with an armed reconnect timer and no connect in flight. -/
def reconnectDemoState : OkxState :=
  { ws := none, pingInterval := false, reconnectTimeout := true,
    isConnecting := false, shouldReconnect := true, nextSocketId := 3 }

/-- Parsed object matching none of the decoder classifications. -/
def unknownMsg : OkxWsMessage :=
  { arg := none, event := none, data := none, code := none, msg := none }

/-- State with a connect attempt in flight. -/
def connectingState : OkxState :=
  { ws := none, pingInterval := false, reconnectTimeout := false,
    isConnecting := true, shouldReconnect := true, nextSocketId := 1 }

/-! ## Structural lemmas about the message handler -/

/-- Every action emitted by `handleMessage` is a subscribe request, a
notification-sink call, or a decode-fault log entry. -/
theorem handleMessage_shape (ws : Option Nat) (f : Frame) :
    ∀ a ∈ handleMessage ws f, a = Action.sendSubscribe ∨
      (∃ n, a = Action.notify n) ∨ (∃ r, a = Action.logDecodeFault r) := by
  rcases f with ⟨raw, parsed⟩
  intro a ha
  simp only [handleMessage] at ha
  split at ha
  · simp at ha
  · split at ha
    · simp at ha
      exact Or.inr (Or.inr ⟨_, ha⟩)
    · split at ha
      · split at ha
        · rcases ws with _ | i <;> simp [subscribeOrders] at ha
          exact Or.inl ha
        · simp at ha
      · split at ha
        · simp at ha
        · split at ha
          · simp at ha
          · split at ha
            · rename_i d heq
              split at ha
              · simp only [handleOrderData, List.mem_map] at ha
                obtain ⟨o, _, rfl⟩ := ha
                exact Or.inr (Or.inl ⟨_, rfl⟩)
              · simp at ha
            · simp at ha

/-- The message handler never emits a login request. -/
theorem handleMessage_no_login (ws : Option Nat) (f : Frame) :
    Action.sendLogin ∉ handleMessage ws f := by
  intro h
  rcases handleMessage_shape ws f _ h with h1 | ⟨n, h1⟩ | ⟨r, h1⟩ <;> cases h1

/-- The message handler never creates a socket. -/
theorem handleMessage_no_create (ws : Option Nat) (f : Frame) (i : Nat) :
    Action.createSocket i ∉ handleMessage ws f := by
  intro h
  rcases handleMessage_shape ws f _ h with h1 | ⟨n, h1⟩ | ⟨r, h1⟩ <;> cases h1

/-- Subscribe requests are emitted exactly on decoded login-success frames
(while a socket reference is held). -/
theorem subscribe_mem_handleMessage (i : Nat) (f : Frame) :
    Action.sendSubscribe ∈ handleMessage (some i) f ↔ isLoginSuccess f = true := by
  rcases f with ⟨raw, parsed⟩
  by_cases hp : raw = "pong"
  · subst hp
    simp [handleMessage, isLoginSuccess]
  · cases parsed with
    | none => simp [handleMessage, isLoginSuccess, hp]
    | some m =>
      by_cases h1 : m.event = some "login"
      · by_cases h2 : m.code = some "0"
        · simp [handleMessage, isLoginSuccess, hp, h1, h2, subscribeOrders]
        · simp [handleMessage, isLoginSuccess, hp, h1, h2]
      · by_cases h3 : m.event = some "subscribe"
        · simp [handleMessage, isLoginSuccess, hp, h1, h3]
        · by_cases h4 : m.event = some "error"
          · simp [handleMessage, isLoginSuccess, hp, h1, h3, h4]
          · simp only [handleMessage, if_neg hp, if_neg h1, if_neg h3, if_neg h4]
            have hright : isLoginSuccess (Frame.text raw (some m)) = false := by
              simp [isLoginSuccess, hp, h1]
            rw [hright]
            rcases m.arg with _ | a <;> rcases m.data with _ | d <;> simp
            intro _
            simp only [handleOrderData, List.mem_map]
            rintro ⟨o, _, h⟩
            cases h

/-! ## Run lemmas -/

/-- Message events leave the manager state untouched: `handleMessage`
mutates none of the `OkxService` fields. -/
theorem step_message_state (s : OkxState) (f : Frame) :
    step s (Ev.message f) = (s, handleMessage s.ws f) := rfl

/-- A run consisting only of message events keeps the state and emits the
concatenation of the per-frame handler actions. -/
theorem run_messages (frames : List Frame) (s : OkxState) :
    run s (frames.map Ev.message) = (s, frames.flatMap (handleMessage s.ws)) := by
  induction frames generalizing s with
  | nil => rfl
  | cons f rest ih =>
    simp [run, step_message_state, ih, List.flatMap_cons]

/-! ## Validation of the crypto embedding -/

set_option maxRecDepth 40000 in
/-- RFC 4231 test case 2 for HMAC-SHA-256, with the digest rendered in
base64: validates the `hmacSha256` and `base64Encode` embeddings against
the published vector. -/
theorem hmacSha256_rfc4231_case2 :
    base64Encode (hmacSha256 (strBytes "Jefe")
        (strBytes "what do ya want for nothing?")) =
      "W9zBRr9gdU5qBCQmCJV1x1oAPwidJzmDnexYuWTsOEM=" := by
  rfl

/-! ## Claim theorems -/

/-- C6: `sign` is a pure function of the secret and the prehash obtained by
concatenating timestamp, method, request path, and body in exactly that
order; its value is the base64 HMAC-SHA-256 digest of that prehash keyed
with the secret.  Equal concatenations give equal signatures, which yields
determinism as the special case of componentwise equal inputs. -/
theorem sign_prehash_concat (secret t1 m1 p1 b1 t2 m2 p2 b2 : String)
    (h : t1 ++ m1 ++ p1 ++ b1 = t2 ++ m2 ++ p2 ++ b2) :
    sign secret t1 m1 p1 b1 = sign secret t2 m2 p2 b2 ∧
    sign secret t1 m1 p1 b1 =
      base64Encode (hmacSha256 (strBytes secret)
        (strBytes (t1 ++ m1 ++ p1 ++ b1))) := by
  constructor
  · simp only [sign, h]
  · rfl

/-- Witness for C6 at concrete inputs: the login-call shape
`(timestamp, "GET", "/users/self/verify", "")` signed with a concrete
secret, compared against a regrouped spelling of the same prehash. -/
theorem sign_prehash_concat_witness :
    ("1735200600" ++ "GET" ++ "/users/self/verify" ++ "" =
      "1735200600GET" ++ "" ++ "/users/self/verify" ++ "") ∧
    (sign "Jefe" "1735200600" "GET" "/users/self/verify" "" =
      sign "Jefe" "1735200600GET" "" "/users/self/verify" "" ∧
    sign "Jefe" "1735200600" "GET" "/users/self/verify" "" =
      base64Encode (hmacSha256 (strBytes "Jefe")
        (strBytes ("1735200600" ++ "GET" ++ "/users/self/verify" ++ "")))) :=
  ⟨by decide,
   sign_prehash_concat "Jefe" "1735200600" "GET" "/users/self/verify" ""
     "1735200600GET" "" "/users/self/verify" "" (by decide)⟩

/-- C8: the formatted size field is the size with the average fill price
appended when `avgPx` is present (nonempty) and not the string zero, and
the size alone otherwise; on the scenario record with size 0.1 and average
price 95000 the dispatched size text is `0.1 @ 95000`. -/
theorem formatSize_spec (order : OkxOrderData) :
    (order.avgPx ≠ "" ∧ order.avgPx ≠ "0" →
      formatSize order = order.sz ++ " @ " ++ order.avgPx) ∧
    (order.avgPx = "" ∨ order.avgPx = "0" → formatSize order = order.sz) ∧
    (orderNotifyArgs sampleFilledOrder).size = "0.1 @ 95000" := by
  refine ⟨fun h => ?_, fun h => ?_, by decide⟩
  · simp [formatSize, h]
  · rcases h with h | h <;> simp [formatSize, h]

/-- Witness for C8 at the scenario record and at a record with average
price zero. -/
theorem formatSize_spec_witness :
    (sampleFilledOrder.avgPx ≠ "" ∧ sampleFilledOrder.avgPx ≠ "0") ∧
    formatSize sampleFilledOrder =
      sampleFilledOrder.sz ++ " @ " ++ sampleFilledOrder.avgPx ∧
    (orderNotifyArgs sampleFilledOrder).size = "0.1 @ 95000" :=
  ⟨by decide, (formatSize_spec sampleFilledOrder).1 (by decide),
   (formatSize_spec sampleFilledOrder).2.2⟩

/-- C9: a literal `pong` text frame leaves the manager state unchanged and
emits no action at all: nothing is sent and the notification sink is not
called, whatever the parse oracle would say about the payload. -/
theorem pong_noop (s : OkxState) (p : Option OkxWsMessage) :
    step s (Ev.message (Frame.text "pong" p)) = (s, []) := by
  simp [step, handleMessage]

/-- C10: frames whose `event` field is `login`, `subscribe`, or `error`
never reach the order-dispatch branch: no notification-sink call occurs,
even when the same object carries `arg.channel == "orders"` and a nonempty
`data` array. -/
theorem event_precedence_no_dispatch (ws : Option Nat) (raw : String)
    (m : OkxWsMessage)
    (h : m.event = some "login" ∨ m.event = some "subscribe" ∨
      m.event = some "error") :
    notifications (handleMessage ws (Frame.text raw (some m))) = [] := by
  by_cases hp : raw = "pong"
  · simp [handleMessage, hp, notifications]
  · rcases h with h | h | h
    · by_cases hc : m.code = some "0"
      · rcases ws with _ | i <;>
          simp [handleMessage, hp, h, hc, subscribeOrders, notifications]
      · simp [handleMessage, hp, h, hc, notifications]
    · have h1 : ¬m.event = some "login" := by simp [h]
      simp [handleMessage, hp, h1, h, notifications]
    · have h1 : ¬m.event = some "login" := by simp [h]
      have h2 : ¬m.event = some "subscribe" := by simp [h]
      simp [handleMessage, hp, h1, h2, h, notifications]

/-- Witness for C10: a login-success frame that also carries orders-channel
data produces no notification-sink call. -/
theorem event_precedence_no_dispatch_witness :
    (loginWithOrdersMsg.event = some "login" ∨
      loginWithOrdersMsg.event = some "subscribe" ∨
      loginWithOrdersMsg.event = some "error") ∧
    notifications (handleMessage (some 0)
      (Frame.text "login frame" (some loginWithOrdersMsg))) = [] :=
  ⟨Or.inl rfl,
   event_precedence_no_dispatch (some 0) "login frame" loginWithOrdersMsg
     (Or.inl rfl)⟩

/-- Notifications of an order batch are exactly the per-record argument
tuples, in array order. -/
theorem notifications_handleOrderData (rs : List OkxOrderData) :
    notifications (handleOrderData rs) = rs.map orderNotifyArgs := by
  induction rs with
  | nil => rfl
  | cons o rest ih =>
    simp only [handleOrderData, List.map_cons, notifications,
      List.filterMap_cons] at ih ⊢
    exact congrArg _ ih

/-- C2: on an order-data frame (orders channel, `data` array of records,
no control event), the notification sink is called once per record, with
the records mapped in array order; in particular the number of sink calls
equals the number of records. -/
theorem order_dispatch_per_record (ws : Option Nat) (raw : String)
    (m : OkxWsMessage) (a : WsArg) (records : List OkxOrderData)
    (hraw : raw ≠ "pong") (harg : m.arg = some a) (hch : a.channel = "orders")
    (hdata : m.data = some records)
    (h1 : m.event ≠ some "login") (h2 : m.event ≠ some "subscribe")
    (h3 : m.event ≠ some "error") :
    notifications (handleMessage ws (Frame.text raw (some m))) =
      records.map orderNotifyArgs ∧
    (notifications (handleMessage ws (Frame.text raw (some m)))).length =
      records.length := by
  have hh : handleMessage ws (Frame.text raw (some m)) =
      handleOrderData records := by
    simp [handleMessage, hraw, h1, h2, h3, harg, hdata, hch]
  rw [hh, notifications_handleOrderData]
  exact ⟨rfl, by simp⟩

/-- Witness for C2 at a concrete two-record order-data frame. -/
theorem order_dispatch_per_record_witness :
    ("orders frame" ≠ "pong" ∧ ordersMsg.arg = some ordersArg ∧
      ordersArg.channel = "orders" ∧
      ordersMsg.data = some [sampleFilledOrder, sampleLiveOrder]) ∧
    notifications (handleMessage (some 0)
        (Frame.text "orders frame" (some ordersMsg))) =
      [orderNotifyArgs sampleFilledOrder, orderNotifyArgs sampleLiveOrder] :=
  ⟨⟨by decide, rfl, rfl, rfl⟩,
   (order_dispatch_per_record (some 0) "orders frame" ordersMsg ordersArg
     [sampleFilledOrder, sampleLiveOrder] (by decide) rfl rfl rfl
     (by decide) (by decide) (by decide)).1⟩

/-- C1 (amended): on a connection instance, the open event emits the only
login request of the trace, that login request is the first action of the
trace (hence precedes any subscribe request), and a subscribe request
occurs in the trace exactly when some decoded login-success frame occurs
among the processed frames. -/
theorem connection_login_subscribe (s : OkxState) (i : Nat)
    (hws : s.ws = some i) (frames : List Frame) :
    ((run s (Ev.sockOpen :: frames.map Ev.message)).2.countP isSendLogin = 1) ∧
    ((run s (Ev.sockOpen :: frames.map Ev.message)).2.head? =
      some Action.sendLogin) ∧
    (Action.sendSubscribe ∈ (run s (Ev.sockOpen :: frames.map Ev.message)).2 ↔
      ∃ f ∈ frames, isLoginSuccess f = true) := by
  have hws1 : ({ s with isConnecting := false, pingInterval := true } :
      OkxState).ws = some i := hws
  have hrun : (run s (Ev.sockOpen :: frames.map Ev.message)).2 =
      Action.sendLogin :: frames.flatMap (handleMessage (some i)) := by
    simp [run, step, hws, run_messages, hws1]
  refine ⟨?_, ?_, ?_⟩
  · rw [hrun]
    simp only [List.countP_cons]
    have hz : (frames.flatMap (handleMessage (some i))).countP isSendLogin = 0 := by
      rw [List.countP_eq_zero]
      intro a ha
      rw [List.mem_flatMap] at ha
      obtain ⟨f, _, haf⟩ := ha
      rcases handleMessage_shape (some i) f a haf with h | ⟨n, h⟩ | ⟨r, h⟩ <;>
        subst h <;> simp [isSendLogin]
    rw [hz]
    rfl
  · rw [hrun]
    rfl
  · rw [hrun]
    simp only [List.mem_cons, List.mem_flatMap]
    constructor
    · rintro (h | ⟨f, hf, hmem⟩)
      · cases h
      · exact ⟨f, hf, (subscribe_mem_handleMessage i f).mp hmem⟩
    · rintro ⟨f, hf, hsucc⟩
      exact Or.inr ⟨f, hf, (subscribe_mem_handleMessage i f).mpr hsucc⟩

/-- Witness for C1 (amended) on the instance that receives exactly one
login-success frame. -/
theorem connection_login_subscribe_witness :
    (liveState.ws = some 0) ∧
    (((run liveState (Ev.sockOpen :: [loginSuccessFrame].map Ev.message)).2.countP
        isSendLogin = 1) ∧
     ((run liveState (Ev.sockOpen :: [loginSuccessFrame].map Ev.message)).2.head? =
        some Action.sendLogin) ∧
     (Action.sendSubscribe ∈
        (run liveState (Ev.sockOpen :: [loginSuccessFrame].map Ev.message)).2 ↔
       ∃ f ∈ [loginSuccessFrame], isLoginSuccess f = true)) :=
  ⟨rfl, connection_login_subscribe liveState 0 rfl [loginSuccessFrame]⟩

/-- Counterexample to C1 as stated: on an instance that decodes a
login-failure frame and later a login-success frame, a subscribe request
is still sent after the failure, because `handleMessage` keys the
subscribe action on each login-success frame without recording an earlier
failure. -/
theorem login_failure_then_subscribe_counterexample :
    isLoginFailure loginFailFrame = true ∧
    handleMessage (some 0) loginFailFrame = [] ∧
    handleMessage (some 0) loginSuccessFrame = [Action.sendSubscribe] ∧
    (run liveState [Ev.sockOpen, Ev.message loginFailFrame,
        Ev.message loginSuccessFrame]).2 =
      [Action.sendLogin, Action.sendSubscribe] :=
  ⟨rfl, rfl, rfl, rfl⟩

/-- Counterexample to C3 as stated: the close handler leaves the heartbeat
timer armed and the socket reference set (cleanup only happens inside the
next connect attempt or at shutdown), and the error handler arms no
reconnect timer at all even though reconnection is permitted. -/
theorem close_error_counterexample :
    closeDemoState.shouldReconnect = true ∧
    (step closeDemoState Ev.sockClose).1.pingInterval = true ∧
    (step closeDemoState Ev.sockClose).1.ws = some 7 ∧
    (step closeDemoState Ev.sockError).2 = [] ∧
    (step closeDemoState Ev.sockError).1.reconnectTimeout = false :=
  ⟨rfl, rfl, rfl, rfl, rfl⟩

/-- C3 (amended): the close handler clears the connecting flag and — when
reconnection is still permitted — arms a 5000 ms reconnect timer; it does
not cancel the heartbeat timer and does not clear the socket reference.
The error handler only clears the connecting flag and arms nothing.  A
firing armed reconnect timer creates a fresh socket when no connect is in
flight. -/
theorem close_error_amended (s : OkxState) :
    step s Ev.sockClose =
      (if s.shouldReconnect then
        ({ s with isConnecting := false, reconnectTimeout := true },
         [Action.armReconnectTimer 5000])
       else ({ s with isConnecting := false }, [])) ∧
    step s Ev.sockError = ({ s with isConnecting := false }, []) ∧
    (s.reconnectTimeout = true → s.isConnecting = false →
      Action.createSocket s.nextSocketId ∈ (step s Ev.reconnectFire).2) := by
  refine ⟨?_, rfl, ?_⟩
  · by_cases h : s.shouldReconnect <;>
      simp [step, scheduleReconnect, h]
  · intro h1 h2
    rcases hw : s.ws with _ | j <;>
      simp [step, h1, connectWebSocket, h2, cleanup, hw]

/-- Witness for C3 (amended): the armed reconnect timer fires and creates
socket 3. -/
theorem close_error_amended_witness :
    (reconnectDemoState.reconnectTimeout = true ∧
      reconnectDemoState.isConnecting = false) ∧
    Action.createSocket 3 ∈ (step reconnectDemoState Ev.reconnectFire).2 :=
  ⟨⟨rfl, rfl⟩, (close_error_amended reconnectDemoState).2.2 rfl rfl⟩

/-- C5 (amended): for a non-pong frame, unparseable JSON reaches the catch
branch, which logs the payload truncated to 500 characters and emits
nothing else; a parsed object matching no classification is dropped with
no action at all (in particular it is not logged as a decode fault); and
no message frame ever changes the manager state, so neither raises past
the handler (which is a total function in this embedding). -/
theorem decode_fault_handling (s : OkxState) (raw : String)
    (hraw : raw ≠ "pong") :
    step s (Ev.message (Frame.text raw none)) =
      (s, [Action.logDecodeFault (raw.take 500)]) ∧
    (∀ m : OkxWsMessage, isUnclassified m = true →
      step s (Ev.message (Frame.text raw (some m))) = (s, [])) ∧
    (∀ p : Option OkxWsMessage,
      (step s (Ev.message (Frame.text raw p))).1 = s) := by
  refine ⟨?_, ?_, fun p => rfl⟩
  · simp [step, handleMessage, hraw]
  · intro m hm
    simp only [isUnclassified, Bool.and_eq_true, bne_iff_ne, ne_eq,
      Bool.not_eq_true] at hm
    obtain ⟨⟨⟨h1, h2⟩, h3⟩, h4⟩ := hm
    have hstep : step s (Ev.message (Frame.text raw (some m))) =
        (s, handleMessage s.ws (Frame.text raw (some m))) := rfl
    rw [hstep]
    rcases ha : m.arg with _ | a
    · simp [handleMessage, hraw, h1, h2, h3, ha]
    · rcases hd : m.data with _ | d
      · simp [handleMessage, hraw, h1, h2, h3, ha, hd]
      · rw [ha, hd] at h4
        have h5 : ¬a.channel = "orders" := by
          simpa using h4
        simp [handleMessage, hraw, h1, h2, h3, ha, hd, h5]

/-- Counterexample to C5 as stated: a frame that parses but matches no
classification is dropped silently — the handler emits no action at all,
so no decode-fault log entry is produced for it; only unparseable JSON is
logged as a decode fault. -/
theorem decode_fault_counterexample :
    isUnclassified unknownMsg = true ∧
    handleMessage (some 0)
      (Frame.text "\x7b\"op\":\"unknown\"\x7d" (some unknownMsg)) = [] :=
  ⟨rfl, rfl⟩

/-- Witness for C5 (amended) on an unparseable payload and on the
unclassified parsed object. -/
theorem decode_fault_handling_witness :
    ("not json" ≠ "pong" ∧ isUnclassified unknownMsg = true) ∧
    step initialState (Ev.message (Frame.text "not json" none)) =
      (initialState, [Action.logDecodeFault ("not json".take 500)]) ∧
    step initialState (Ev.message (Frame.text "not json" (some unknownMsg))) =
      (initialState, []) :=
  ⟨⟨by decide, rfl⟩,
   (decode_fault_handling initialState "not json" (by decide)).1,
   (decode_fault_handling initialState "not json" (by decide)).2.1 unknownMsg rfl⟩

/-- Every handler except an explicit connect call preserves a disabled
reconnect flag and a disarmed reconnect timer, and creates no socket. -/
theorem step_preserves_no_reconnect (s : OkxState) (e : Ev)
    (he : e ≠ Ev.connect) (h1 : s.shouldReconnect = false)
    (h2 : s.reconnectTimeout = false) :
    (step s e).1.shouldReconnect = false ∧
    (step s e).1.reconnectTimeout = false ∧
    ∀ i, Action.createSocket i ∉ (step s e).2 := by
  cases e with
  | connect => exact absurd rfl he
  | sockOpen =>
    refine ⟨h1, h2, fun i => ?_⟩
    rcases hw : s.ws with _ | j <;> simp [step, hw]
  | message f => exact ⟨h1, h2, fun i => handleMessage_no_create s.ws f i⟩
  | sockError => exact ⟨h1, h2, by simp [step]⟩
  | sockClose =>
    have hsr : ({ s with isConnecting := false } : OkxState).shouldReconnect =
        false := h1
    refine ⟨?_, ?_, fun i => ?_⟩ <;>
      simp [step, scheduleReconnect, hsr, h1, h2]
  | stop =>
    refine ⟨rfl, rfl, fun i => ?_⟩
    rcases hw : s.ws with _ | j <;>
      simp [step, onModuleDestroy, cleanup, hw]
  | reconnectFire =>
    refine ⟨?_, ?_, fun i => ?_⟩ <;> simp [step, h1, h2]
  | pingFire =>
    refine ⟨?_, ?_, fun i => ?_⟩ <;>
      rcases hp : s.pingInterval with _ | _ <;>
        rcases hw : s.ws with _ | j <;> simp [step, hp, hw, h1, h2]

/-- With reconnection disabled and no armed reconnect timer, no run that
lacks an explicit connect event ever creates a socket. -/
theorem run_no_create (evs : List Ev) : ∀ s : OkxState, Ev.connect ∉ evs →
    s.shouldReconnect = false → s.reconnectTimeout = false →
    ∀ i, Action.createSocket i ∉ (run s evs).2 := by
  induction evs with
  | nil =>
    intro s _ _ _ i
    simp [run]
  | cons e rest ih =>
    intro s hne h1 h2 i
    have he : e ≠ Ev.connect := by
      intro h
      exact hne (h ▸ List.mem_cons_self e rest)
    obtain ⟨g1, g2, g3⟩ := step_preserves_no_reconnect s e he h1 h2
    have hrest : Ev.connect ∉ rest := fun h => hne (List.mem_cons_of_mem e h)
    simp only [run, List.mem_append]
    rintro (h | h)
    · exact g3 i h
    · exact ih (step s e).1 hrest g1 g2 i h

/-- C4: manager shutdown disables the reconnect flag, disarms both timers,
drops the socket reference and emits a close for any live socket; in every
subsequent run without an explicit connect call (the destroyed module can
receive closes, errors, messages, and stale timer fires, but nothing calls
connect), no socket is ever created. -/
theorem stop_terminal (s : OkxState) (evs : List Ev)
    (h : Ev.connect ∉ evs) :
    (step s Ev.stop).1.shouldReconnect = false ∧
    (step s Ev.stop).1.pingInterval = false ∧
    (step s Ev.stop).1.reconnectTimeout = false ∧
    (step s Ev.stop).1.ws = none ∧
    (∀ i, s.ws = some i → Action.closeSocket i ∈ (step s Ev.stop).2) ∧
    (∀ i, Action.createSocket i ∉ (run (step s Ev.stop).1 evs).2) := by
  refine ⟨rfl, rfl, rfl, rfl, fun i hi => ?_, ?_⟩
  · simp [step, onModuleDestroy, cleanup, hi]
  · exact run_no_create evs _ h rfl rfl

/-- Witness for C4: shutdown from the live-socket state, followed by a
stale close, a reconnect-timer fire, and a further message. -/
theorem stop_terminal_witness :
    (Ev.connect ∉ [Ev.sockClose, Ev.reconnectFire,
        Ev.message loginSuccessFrame]) ∧
    (step closeDemoState Ev.stop).1.ws = none ∧
    Action.closeSocket 7 ∈ (step closeDemoState Ev.stop).2 ∧
    (∀ i, Action.createSocket i ∉
      (run (step closeDemoState Ev.stop).1 [Ev.sockClose, Ev.reconnectFire,
        Ev.message loginSuccessFrame]).2) :=
  ⟨by decide,
   (stop_terminal closeDemoState [Ev.sockClose, Ev.reconnectFire,
      Ev.message loginSuccessFrame] (by decide)).2.2.2.1,
   (stop_terminal closeDemoState [Ev.sockClose, Ev.reconnectFire,
      Ev.message loginSuccessFrame] (by decide)).2.2.2.2.1 7 rfl,
   (stop_terminal closeDemoState [Ev.sockClose, Ev.reconnectFire,
      Ev.message loginSuccessFrame] (by decide)).2.2.2.2.2⟩

/-- C7: a connect call while a connect is already in flight is a no-op
(state and actions), and two consecutive connect calls create exactly one
socket when no connect was in flight, zero when one was. -/
theorem connect_idempotent (s : OkxState) :
    (s.isConnecting = true → step s Ev.connect = (s, [])) ∧
    ((run s [Ev.connect, Ev.connect]).2.countP isCreateSocket =
      if s.isConnecting then 0 else 1) := by
  constructor
  · intro h
    simp [step, connectWebSocket, h]
  · by_cases h : s.isConnecting
    · simp [run, step, connectWebSocket, h]
    · rcases hw : s.ws with _ | j <;>
        simp [run, step, connectWebSocket, cleanup, h, hw, isCreateSocket]

/-- Witness for C7: with a connect in flight, a further connect call
changes nothing and two repeated calls create no socket; the count
evaluates through the theorem at this concrete state. -/
theorem connect_idempotent_witness :
    (connectingState.isConnecting = true) ∧
    step connectingState Ev.connect = (connectingState, []) ∧
    (run connectingState [Ev.connect, Ev.connect]).2.countP isCreateSocket
      = 0 :=
  ⟨rfl, (connect_idempotent connectingState).1 rfl, by
    have h := (connect_idempotent connectingState).2
    have hc : connectingState.isConnecting = true := rfl
    exact h.trans (if_pos hc)⟩

end OkxSub
